import Mathlib

/-!
Verification of `generate_deletes/delete_records.py`.

The script is a linear pipeline: parse command-line arguments, validate them
(`check_args`), scrape the database schema from the external `tql` tool's
pipe-delimited text output (`read_descriptions`), then read a `|`-delimited
file of rows and build and execute one `DELETE` statement per row
(`generate_deletes`).

The embedding below mirrors the Python source function by function.
Python strings become `String`, Python dictionaries become association
lists (`assocGet`/`assocSet` give the `dict.get`/`dict.__setitem__`
semantics used by the script), Python's fallible operations (`list[2]` on
a short list, `dict[key]` on a missing key) become `Except`, and the
script's observable effects (stderr lines, subprocess invocations, the
statements written to the temporary file, the final summary line, an
uncaught exception) are collected in explicit trace records.  The two
`check_output` calls and the file system are inputs: an `Env` record
carries the `show tables` output lines, the per-table `show table` output
lines, the delete file's lines and `os.path.isfile`'s answer.
-/

/-! ### Python string primitives

`str.split(sep)` for the one-character separator `"|"` used throughout the
script, and `str.strip()`.  Both are written as structural recursion over
the character list so that they evaluate inside the kernel.
-/

/-- Core of Python `str.split(sep)` for a one-character separator:
splitting the empty string yields one empty group, and each separator
character starts a new group. -/
def splitCharAux (sep : Char) : List Char → List (List Char)
  | [] => [[]]
  | c :: rest =>
    match splitCharAux sep rest with
    | [] => [[]]
    | g :: gs => if c == sep then [] :: g :: gs else (c :: g) :: gs

/-- Python `s.split(sep)` for a one-character separator. -/
def pySplit (s : String) (sep : Char) : List String :=
  (splitCharAux sep s.data).map String.mk

/-- Python `s.strip()`: remove leading and trailing whitespace. -/
def pyStrip (s : String) : String :=
  String.mk (((s.data.dropWhile Char.isWhitespace).reverse.dropWhile
    Char.isWhitespace).reverse)

/-- Whether `s` starts with the pattern `p` (on character lists). -/
def startsWithAux : List Char → List Char → Bool
  | _, [] => true
  | [], _ :: _ => false
  | c :: s, p :: ps => c == p && startsWithAux s ps

/-- Substring test on character lists. -/
def hasSubAux (p : List Char) : List Char → Bool
  | [] => startsWithAux [] p
  | c :: rest => startsWithAux (c :: rest) p || hasSubAux p rest

/-- Python `pat in s` for strings: substring containment. -/
def containsSub (s pat : String) : Bool :=
  hasSubAux pat.data s.data

/-- The single-quote character, as a string. -/
def sQuote : String :=
  String.singleton (Char.ofNat 39)

/-! ### Python dictionaries as association lists -/

/-- Python `d.get(k)` / `d.get(k, None)`: first (unique) binding of `k`. -/
def assocGet {α : Type} : List (String × α) → String → Option α
  | [], _ => none
  | (k1, v) :: rest, k => if k1 == k then some v else assocGet rest k

/-- Python `d[k] = v`: overwrite the binding of `k` if present, else append. -/
def assocSet {α : Type} : List (String × α) → String → α → List (String × α)
  | [], k, v => [(k, v)]
  | (k1, v1) :: rest, k, v =>
    if k1 == k then (k, v) :: rest else (k1, v1) :: assocSet rest k v

/-- Column map of one table: column name → type string. -/
abbrev Columns := List (String × String)

/-- Tables of one schema: table name → column map. -/
abbrev Tables := List (String × Columns)

/-- The global `descriptions` map: schema name → tables. -/
abbrev Descriptions := List (String × Tables)

/-! ### `read_descriptions` (delete_records.py lines 101-142)

The two `check_output` invocations are inputs: `tablesOut` is the line
list produced by `show tables <db>`, and `columnsOf schema table` the line
list produced by `show table <db>.<schema>.<table>`.
-/

/-- One line of the `show tables` output (lines 114-117): split on `|`;
a line with at least 2 fields yields the stripped schema and table name,
any other line is skipped. -/
def parseTableLine (line : String) : Option (String × String) :=
  match pySplit line '|' with
  | sn :: tn :: _ => some (pyStrip sn, pyStrip tn)
  | _ => none

/-- One line of the `show table` output (lines 134-139): split on `|`;
the guard requires at least 2 fields, but the type is read from field
index 2, so a line with exactly 2 fields raises an uncaught `IndexError`.
A parsed line yields the stripped column name and type. -/
def parseColumnLine (line : String) : Except String (Option (String × String)) :=
  match pySplit line '|' with
  | cn :: _ :: rest =>
    match rest with
    | ty :: _ => Except.ok (some (pyStrip cn, pyStrip ty))
    | [] => Except.error "IndexError: list index out of range"
  | _ => Except.ok none

/-- The column loop of `read_descriptions` (lines 134-139), folding the
parsed column lines into the table's column map. -/
def readColumnLines (table : Columns) : List String → Except String Columns
  | [] => Except.ok table
  | line :: rest =>
    match parseColumnLine line with
    | Except.error e => Except.error e
    | Except.ok none => readColumnLines table rest
    | Except.ok (some (cn, ty)) => readColumnLines (assocSet table cn ty) rest

/-- The table loop of `read_descriptions` (lines 113-142).  Returns the
built description map (or the uncaught exception) together with the
number of `check_output` subprocess calls made for column listings. -/
def readTableLinesAux (columnsOf : String → String → List String)
    (desc : Descriptions) (calls : Nat) :
    List String → (Except String Descriptions) × Nat
  | [] => (Except.ok desc, calls)
  | line :: rest =>
    match parseTableLine line with
    | none => readTableLinesAux columnsOf desc calls rest
    | some (sn, tn) =>
      let schema := (assocGet desc sn).getD []
      let table := (assocGet schema tn).getD []
      match readColumnLines table (columnsOf sn tn) with
      | Except.error e => (Except.error e, calls + 1)
      | Except.ok table2 =>
        readTableLinesAux columnsOf
          (assocSet desc sn (assocSet schema tn table2)) (calls + 1) rest

/-- `read_descriptions` (lines 101-142), starting from the empty global
`descriptions` map.  The count includes the initial `show tables` call. -/
def read_descriptions (tablesOut : List String)
    (columnsOf : String → String → List String) :
    (Except String Descriptions) × Nat :=
  let r := readTableLinesAux columnsOf [] 0 tablesOut
  (r.1, r.2 + 1)

/-! ### Command-line arguments (lines 52-98) -/

/-- The parsed command-line arguments (lines 52-75).  `-f`, `-t` and `-d`
have no default, `-s` defaults to `falcon_default_schema` and `-p` to
`|`. -/
structure Args where
  filename : Option String
  table : Option String
  database : Option String
  schema : String
  separator : String
deriving DecidableEq

/-- Python `"%s" % v` for an optional string: `None` prints as `None`. -/
def optStr : Option String → String
  | some s => s
  | none => "None"

/-- `check_args` (lines 83-98): returns `args_are_good` together with the
lines printed to standard error.  `fileIsFile` is `os.path.isfile`'s
answer for the given filename. -/
def check_args (a : Args) (fileIsFile : Bool) : Bool × List String :=
  let fileBad : Bool := a.filename.isNone || !fileIsFile
  let tableBad : Bool := a.table.isNone
  let dbBad : Bool := a.database.isNone
  (!fileBad && !tableBad && !dbBad,
    (if fileBad then ["Delete file " ++ optStr a.filename ++ " was not found."]
     else []) ++
    (if tableBad then ["Table was not specified."] else []) ++
    (if dbBad then ["Database was not specified."] else []))

/-! ### `generate_deletes` (lines 148-194) -/

/-- `descriptions.get(args.schema, {}).get(args.table, None)` (line 157). -/
def lookupColumns (desc : Descriptions) (sn tn : String) : Option Columns :=
  match assocGet desc sn with
  | none => none
  | some tables => assocGet tables tn

/-- One `WHERE` condition (lines 179-183): the value is unquoted when the
column's type string contains `int` or `double`, single-quoted otherwise. -/
def formatCondition (ty key value : String) : String :=
  if containsSub ty "int" || containsSub ty "double" then
    key ++ " = " ++ value
  else
    key ++ " = " ++ sQuote ++ value ++ sQuote

/-- Total description of the condition built for one `(key, value)` pair,
used to state what the loop produces when every lookup succeeds. -/
def condOfD (columns : Columns) (p : String × String) : String :=
  formatCondition ((assocGet columns p.1).getD "") p.1 p.2

/-- The `first` / `" AND "` accumulation of the condition loop
(lines 172-183). -/
def joinAnd : List String → String
  | [] => ""
  | [c] => c
  | c :: c2 :: rest => c ++ " AND " ++ joinAnd (c2 :: rest)

/-- The condition loop (lines 173-183): each key's type is looked up with
`columns[key]`, so the first key missing from the column map raises an
uncaught `KeyError` (returned as `Except.error key`). -/
def buildConditions (columns : Columns) : List (String × String) →
    Except String (List String)
  | [] => Except.ok []
  | (key, value) :: rest =>
    match assocGet columns key with
    | none => Except.error key
    | some ty =>
      match buildConditions columns rest with
      | Except.error e => Except.error e
      | Except.ok conds => Except.ok (formatCondition ty key value :: conds)

/-- One delete statement (lines 168-185): the `DELETE FROM` header, the
conditions joined by `AND`, and the terminating semicolon.  (The
trailing `"\n"` added before the file write is the line terminator of the
temporary file; statements are modelled as its lines.) -/
def buildStmt (db sn tn : String) (columns : Columns)
    (row : List (String × String)) : Except String String :=
  match buildConditions columns row with
  | Except.error k => Except.error k
  | Except.ok conds =>
    Except.ok ("DELETE FROM " ++ db ++ "." ++ sn ++ "." ++ tn ++ " WHERE " ++
      joinAnd conds ++ ";")

/-- The statement `buildStmt` produces when every column lookup succeeds. -/
def stmtOfD (db sn tn : String) (columns : Columns)
    (row : List (String × String)) : String :=
  "DELETE FROM " ++ db ++ "." ++ sn ++ "." ++ tn ++ " WHERE " ++
    joinAnd (row.map (condOfD columns)) ++ ";"

/-- Every column name of the row exists in the discovered column map. -/
def rowOk (columns : Columns) (row : List (String × String)) : Bool :=
  row.all fun p => (assocGet columns p.1).isSome

/-- `csv.DictReader(valuefile, delimiter="|", quotechar='"')` iteration
(lines 164-167): the first line names the columns, each later line is
split on the hardcoded `|` and zipped with the header into a row
dictionary; blank lines produce the empty record `[]`, which `DictReader`
skips.  (Per the documented input contract, fields contain neither the
separator nor the quote character, and each data line has one field per
header column.) -/
def dictReaderRows (lines : List String) : List (List (String × String)) :=
  match lines with
  | [] => []
  | header :: rest =>
    (rest.filter fun line => line != "").map
      fun line => (pySplit header '|').zip (pySplit line '|')

/-- Result of the row loop (lines 167-187): the statements written to the
temporary file, the key of the uncaught `KeyError` if one was raised, and
the final `nbr_deletes` counter. -/
structure WriteResult where
  written : List String
  crashKey : Option String
  count : Nat
deriving DecidableEq

/-- The row loop (lines 167-187): each row's statement is written and
counted; a `KeyError` stops the loop, keeping the statements already
written. -/
def writeStmts (db sn tn : String) (columns : Columns) :
    List (List (String × String)) → WriteResult
  | [] => ⟨[], none, 0⟩
  | row :: rest =>
    match buildStmt db sn tn columns row with
    | Except.error k => ⟨[], some k, 0⟩
    | Except.ok stmt =>
      let r := writeStmts db sn tn columns rest
      ⟨stmt :: r.written, r.crashKey, r.count + 1⟩

/-- Observable effects of one `generate_deletes` call. -/
structure GenTrace where
  stderr : List String
  fileRead : Bool
  written : List String
  tqlExecuted : Bool
  summary : Option Nat
  crash : Option String
deriving DecidableEq

/-- `generate_deletes` (lines 148-194).  `fileLines` are the lines of the
delete file and `tqlExit` is the exit status of the
`subprocess.call("cat /tmp/deleteme | tql")` batch execution — the script
discards that status, so the parameter is unused.  A failed table lookup
prints to stderr and returns before the file is opened; a `KeyError`
aborts before the batch execution and the summary; otherwise the batch is
executed and the `Executed N deletes` summary printed. -/
def generate_deletes (db sn tn : String) (desc : Descriptions)
    (fileLines : List String) (tqlExit : Int) : GenTrace :=
  match lookupColumns desc sn tn with
  | none =>
    { stderr := ["Table " ++ sn ++ "." ++ tn ++ " not found."]
      fileRead := false
      written := []
      tqlExecuted := false
      summary := none
      crash := none }
  | some columns =>
    let r := writeStmts db sn tn columns (dictReaderRows fileLines)
    match r.crashKey with
    | some k =>
      { stderr := []
        fileRead := true
        written := r.written
        tqlExecuted := false
        summary := none
        crash := some ("KeyError: " ++ k) }
    | none =>
      { stderr := []
        fileRead := true
        written := r.written
        tqlExecuted := true
        summary := some r.count
        crash := none }

/-! ### `main` (lines 42-49) -/

/-- The environment of one run: `os.path.isfile`'s answer for the `-f`
argument, the two kinds of `tql` schema output, the delete file's lines
and the batch execution's exit status. -/
structure Env where
  fileIsFile : Bool
  tablesOut : List String
  columnsOf : String → String → List String
  fileLines : List String
  tqlExit : Int

/-- Observable effects of one `main` run: stderr lines, number of schema
`check_output` subprocess calls, number of batch-execution subprocess
calls, whether the delete file was read, the statements written to the
temporary file, the reported summary count, and an uncaught exception. -/
structure Trace where
  stderr : List String
  schemaCalls : Nat
  execCalls : Nat
  fileRead : Bool
  written : List String
  summary : Option Nat
  crash : Option String

/-- `main` (lines 42-49): when `check_args` fails, the run stops after the
argument-error messages, before any subprocess call; otherwise
`read_descriptions` then `generate_deletes` run. -/
def runMain (a : Args) (env : Env) : Trace :=
  let c := check_args a env.fileIsFile
  if c.1 then
    let r := read_descriptions env.tablesOut env.columnsOf
    match r.1 with
    | Except.error e =>
      { stderr := []
        schemaCalls := r.2
        execCalls := 0
        fileRead := false
        written := []
        summary := none
        crash := some e }
    | Except.ok desc =>
      let g := generate_deletes (optStr a.database) a.schema (optStr a.table)
        desc env.fileLines env.tqlExit
      { stderr := g.stderr
        schemaCalls := r.2
        execCalls := if g.tqlExecuted then 1 else 0
        fileRead := g.fileRead
        written := g.written
        summary := g.summary
        crash := g.crash }
  else
    { stderr := c.2
      schemaCalls := 0
      execCalls := 0
      fileRead := false
      written := []
      summary := none
      crash := none }

/-- `c` occurs verbatim as a contiguous substring of `s`. -/
def occurs (c s : String) : Prop :=
  ∃ p q, s = p ++ c ++ q

/-- A field value containing a single quote, a semicolon and SQL text, used
to witness that values are interpolated without sanitization. -/
def hostileValue : String :=
  "x" ++ sQuote ++ "; DROP TABLE t; --"

/-! ### Helper lemmas -/

theorem strData_append (a b : String) : (a ++ b).data = a.data ++ b.data := by
  cases a; cases b; rfl

theorem strExt {a b : String} (h : a.data = b.data) : a = b := by
  cases a; cases b; simp_all

theorem occurs_self (c : String) : occurs c c :=
  ⟨"", "", strExt (by simp [strData_append])⟩

theorem occurs_append_left {c s : String} (t : String) (h : occurs c s) :
    occurs c (s ++ t) := by
  obtain ⟨p, q, hpq⟩ := h
  exact ⟨p, q ++ t, strExt (by simp [hpq, strData_append])⟩

theorem occurs_append_right {c s : String} (t : String) (h : occurs c s) :
    occurs c (t ++ s) := by
  obtain ⟨p, q, hpq⟩ := h
  exact ⟨t ++ p, q, strExt (by simp [hpq, strData_append])⟩

theorem occurs_trans {a b c : String} (h1 : occurs a b) (h2 : occurs b c) :
    occurs a c := by
  obtain ⟨p, q, hpq⟩ := h1
  obtain ⟨r, s, hrs⟩ := h2
  exact ⟨r ++ p, q ++ s, strExt (by simp [hrs, hpq, strData_append])⟩

theorem mem_joinAnd {c : String} : ∀ {l : List String}, c ∈ l → occurs c (joinAnd l)
  | [], h => absurd h (List.not_mem_nil c)
  | [x], h => by
    rcases List.mem_singleton.mp h with rfl
    exact occurs_self c
  | x :: y :: rest, h => by
    rcases List.mem_cons.mp h with rfl | h2
    · show occurs c (c ++ " AND " ++ joinAnd (y :: rest))
      exact occurs_append_left _ (occurs_append_left _ (occurs_self c))
    · show occurs c (x ++ " AND " ++ joinAnd (y :: rest))
      exact occurs_append_right _ (mem_joinAnd h2)

theorem rowOk_iff {columns : Columns} {row : List (String × String)} :
    rowOk columns row = true ↔ ∀ p ∈ row, (assocGet columns p.1).isSome = true := by
  simp [rowOk, List.all_eq_true]

theorem rowOk_false {columns : Columns} {row : List (String × String)}
    (h : rowOk columns row = false) : ∃ p ∈ row, assocGet columns p.1 = none := by
  have h2 : ¬ (∀ p ∈ row, (assocGet columns p.1).isSome = true) := by
    rw [← rowOk_iff]
    simp [h]
  push_neg at h2
  obtain ⟨p, hp, hn⟩ := h2
  refine ⟨p, hp, ?_⟩
  cases hx : assocGet columns p.1 with
  | none => rfl
  | some v => exact absurd (by simp [hx]) hn

theorem buildConditions_ok {columns : Columns} :
    ∀ {pairs : List (String × String)},
      (∀ p ∈ pairs, (assocGet columns p.1).isSome = true) →
      buildConditions columns pairs = Except.ok (pairs.map (condOfD columns))
  | [], _ => rfl
  | (k, v) :: tl, h => by
    have h1 : (assocGet columns k).isSome = true := h (k, v) (List.mem_cons_self _ _)
    obtain ⟨ty, hty⟩ := Option.isSome_iff_exists.mp h1
    have ih := buildConditions_ok (fun p hp => h p (List.mem_cons_of_mem _ hp))
    simp [buildConditions, hty, ih, condOfD]

theorem buildConditions_err {columns : Columns} :
    ∀ {pairs : List (String × String)},
      (∃ p ∈ pairs, assocGet columns p.1 = none) →
      ∃ k, buildConditions columns pairs = Except.error k ∧ assocGet columns k = none
  | [], h => by simp at h
  | (k, v) :: tl, h => by
    cases hck : assocGet columns k with
    | none => exact ⟨k, by simp [buildConditions, hck], hck⟩
    | some ty =>
      obtain ⟨p, hp, hpn⟩ := h
      rcases List.mem_cons.mp hp with rfl | htl
      · exact absurd hpn (by simp [hck])
      · obtain ⟨k2, hbc, hk2⟩ := buildConditions_err ⟨p, htl, hpn⟩
        exact ⟨k2, by simp [buildConditions, hck, hbc], hk2⟩

theorem buildConditions_mem {columns : Columns} :
    ∀ {pairs : List (String × String)} {conds : List String},
      buildConditions columns pairs = Except.ok conds →
      ∀ {k v : String}, (k, v) ∈ pairs →
      ∃ ty, assocGet columns k = some ty ∧ formatCondition ty k v ∈ conds
  | [], conds, _, k, v, hm => absurd hm (List.not_mem_nil _)
  | (k1, v1) :: tl, conds, hbc, k, v, hm => by
    cases hck : assocGet columns k1 with
    | none => simp [buildConditions, hck] at hbc
    | some ty1 =>
      cases hbc2 : buildConditions columns tl with
      | error e => simp [buildConditions, hck, hbc2] at hbc
      | ok conds2 =>
        have hconds : conds = formatCondition ty1 k1 v1 :: conds2 := by
          simp [buildConditions, hck, hbc2] at hbc
          exact hbc.symm
        rcases List.mem_cons.mp hm with heq | htl
        · obtain ⟨rfl, rfl⟩ := Prod.mk.injEq .. ▸ heq
          exact ⟨ty1, hck, by simp [hconds]⟩
        · obtain ⟨ty, hty, hmem⟩ := buildConditions_mem hbc2 htl
          exact ⟨ty, hty, by simp [hconds, hmem]⟩

theorem buildStmt_ok {db sn tn : String} {columns : Columns}
    {row : List (String × String)} (h : rowOk columns row = true) :
    buildStmt db sn tn columns row =
      Except.ok (stmtOfD db sn tn columns row) := by
  simp [buildStmt, buildConditions_ok (rowOk_iff.mp h), stmtOfD]

theorem buildStmt_err {db sn tn : String} {columns : Columns}
    {row : List (String × String)} (h : rowOk columns row = false) :
    ∃ k, buildStmt db sn tn columns row = Except.error k ∧
      assocGet columns k = none := by
  obtain ⟨k, hbc, hk⟩ := buildConditions_err (rowOk_false h)
  exact ⟨k, by simp [buildStmt, hbc], hk⟩

theorem writeStmts_ok {db sn tn : String} {columns : Columns} :
    ∀ {rows : List (List (String × String))},
      (∀ r ∈ rows, rowOk columns r = true) →
      writeStmts db sn tn columns rows =
        ⟨rows.map (stmtOfD db sn tn columns), none, rows.length⟩
  | [], _ => rfl
  | row :: rest, h => by
    have hr := @buildStmt_ok db sn tn columns row
      (h row (List.mem_cons_self _ _))
    have ih := @writeStmts_ok db sn tn columns rest
      (fun r hrr => h r (List.mem_cons_of_mem _ hrr))
    simp [writeStmts, hr, ih]

theorem writeStmts_err {db sn tn : String} {columns : Columns} :
    ∀ {rows : List (List (String × String))},
      (∃ r ∈ rows, rowOk columns r = false) →
      ∃ k, assocGet columns k = none ∧
        (writeStmts db sn tn columns rows).crashKey = some k
  | [], h => by simp at h
  | row :: rest, h => by
    cases hrow : rowOk columns row with
    | false =>
      obtain ⟨k, hbs, hk⟩ := @buildStmt_err db sn tn columns row hrow
      exact ⟨k, hk, by simp [writeStmts, hbs]⟩
    | true =>
      have hrest : ∃ r ∈ rest, rowOk columns r = false := by
        obtain ⟨r, hr, hrf⟩ := h
        rcases List.mem_cons.mp hr with rfl | htl
        · exact absurd hrow (by simp [hrf])
        · exact ⟨r, htl, hrf⟩
      obtain ⟨k, hk, hck⟩ := @writeStmts_err db sn tn columns rest hrest
      have hbs := @buildStmt_ok db sn tn columns row hrow
      exact ⟨k, hk, by simp [writeStmts, hbs, hck]⟩

theorem check_args_bad {a : Args} {b : Bool}
    (h : a.filename = none ∨ b = false ∨ a.table = none ∨ a.database = none) :
    (check_args a b).1 = false ∧ (check_args a b).2 ≠ [] := by
  rcases h with h | h | h | h
  · constructor
    · simp [check_args, h]
    · intro hx
      simp [check_args, h] at hx
  · constructor
    · simp [check_args, h]
    · intro hx
      simp [check_args, h] at hx
  · constructor
    · simp [check_args, h]
    · intro hx
      simp [check_args, h, List.append_eq_nil] at hx
  · constructor
    · simp [check_args, h]
    · intro hx
      simp [check_args, h, List.append_eq_nil] at hx

/-! ### Claims -/

/-- Claim C1: in every generated DELETE statement, a column whose discovered
type string contains "int" or "double" has its value emitted unquoted
(`col = val`), and every other column has its value emitted in single
quotes (`col = 'val'`). -/
theorem typeBasedQuoting (db sn tn : String) (columns : Columns)
    (row : List (String × String)) (stmt : String)
    (h : buildStmt db sn tn columns row = Except.ok stmt)
    (k v : String) (hm : (k, v) ∈ row) :
    ∃ ty, assocGet columns k = some ty ∧
      occurs (if containsSub ty "int" || containsSub ty "double"
              then k ++ " = " ++ v
              else k ++ " = " ++ sQuote ++ v ++ sQuote) stmt := by
  cases hbc : buildConditions columns row with
  | error e => simp [buildStmt, hbc] at h
  | ok conds =>
    obtain ⟨ty, hty, hmem⟩ := buildConditions_mem hbc hm
    have hstmt : stmt = "DELETE FROM " ++ db ++ "." ++ sn ++ "." ++ tn ++
        " WHERE " ++ joinAnd conds ++ ";" := by
      simp [buildStmt, hbc] at h
      exact h.symm
    refine ⟨ty, hty, ?_⟩
    have h2 : occurs (formatCondition ty k v) stmt := by
      rw [hstmt]
      exact occurs_append_left _ (occurs_append_right _ (mem_joinAnd hmem))
    simpa [formatCondition] using h2

/-- Witness for C1 at a concrete input: a varchar column's value appears in
single quotes in the generated statement. -/
theorem typeBasedQuotingWitness :
    ∃ ty, assocGet [("id", "int64"), ("nm", "varchar")] "nm" = some ty ∧
      occurs (if containsSub ty "int" || containsSub ty "double"
              then "nm" ++ " = " ++ "bob"
              else "nm" ++ " = " ++ sQuote ++ "bob" ++ sQuote)
        ("DELETE FROM db.s1.t1 WHERE id = 7 AND nm = " ++ sQuote ++ "bob" ++
          sQuote ++ ";") :=
  typeBasedQuoting "db" "s1" "t1" [("id", "int64"), ("nm", "varchar")]
    [("id", "7"), ("nm", "bob")]
    ("DELETE FROM db.s1.t1 WHERE id = 7 AND nm = " ++ sQuote ++ "bob" ++
      sQuote ++ ";")
    rfl "nm" "bob" (by simp)

/-- Claim C2: for each row of the input file, the script emits exactly one
statement `DELETE FROM db.schema.table WHERE col1 = val1 AND col2 = val2 ... ;`:
the target is the database, schema and table from the arguments, and the
WHERE clause has one equality condition per column of the row, joined by
AND and terminated by a semicolon. -/
theorem deleteStatementShape (db sn tn : String) (desc : Descriptions)
    (columns : Columns) (header : String) (dataLines : List String) (e : Int)
    (hlook : lookupColumns desc sn tn = some columns)
    (hne : ∀ line ∈ dataLines, line ≠ "")
    (hok : ∀ row ∈ dictReaderRows (header :: dataLines),
      rowOk columns row = true) :
    (generate_deletes db sn tn desc (header :: dataLines) e).written =
      dataLines.map (fun line =>
        "DELETE FROM " ++ db ++ "." ++ sn ++ "." ++ tn ++ " WHERE " ++
          joinAnd (((pySplit header '|').zip (pySplit line '|')).map
            (condOfD columns)) ++ ";") := by
  have hfilter : dataLines.filter (fun l => l != "") = dataLines :=
    List.filter_eq_self.mpr (fun a ha => by simpa using hne a ha)
  have hrows : dictReaderRows (header :: dataLines) =
      dataLines.map (fun line => (pySplit header '|').zip (pySplit line '|')) := by
    simp [dictReaderRows, hfilter]
  have hws := @writeStmts_ok db sn tn columns (dictReaderRows (header :: dataLines)) hok
  rw [hrows] at hws
  simp [generate_deletes, hlook, hrows, hws, stmtOfD,
    List.map_map, Function.comp]

/-- Witness for C2 at a concrete input. -/
theorem deleteStatementShapeWitness :
    (generate_deletes "db" "s1" "t1"
      [("s1", [("t1", [("id", "int64"), ("nm", "varchar")])])]
      ["id|nm", "7|bob"] 0).written =
      ["7|bob"].map (fun line =>
        "DELETE FROM " ++ "db" ++ "." ++ "s1" ++ "." ++ "t1" ++ " WHERE " ++
          joinAnd (((pySplit "id|nm" '|').zip (pySplit line '|')).map
            (condOfD [("id", "int64"), ("nm", "varchar")])) ++ ";") :=
  deleteStatementShape "db" "s1" "t1"
    [("s1", [("t1", [("id", "int64"), ("nm", "varchar")])])]
    [("id", "int64"), ("nm", "varchar")] "id|nm" ["7|bob"] 0
    rfl (by decide) (by decide)

/-- Claim C3 (code-bug evidence): a `show table` output line with exactly two
pipe-delimited fields — fewer than the three the claim and the spec say are
required — passes the `len(column_details) >= 2` guard of lines 136-138, and
the type read from field index 2 then raises an uncaught IndexError instead
of the line being silently skipped. -/
theorem twoFieldColumnLineRaises :
    (pySplit "EMP_ID|VARCHAR" '|').length = 2 ∧
    parseColumnLine "EMP_ID|VARCHAR" =
      Except.error "IndexError: list index out of range" :=
  ⟨rfl, rfl⟩

/-- Claim C4: the count of generated delete statements — the number in the
final summary and the number of statements written to the temporary file —
equals the number of data rows of the input file (the rows after the header
row). -/
theorem deleteCountMatchesRows (db sn tn : String) (desc : Descriptions)
    (columns : Columns) (header : String) (dataLines : List String) (e : Int)
    (hlook : lookupColumns desc sn tn = some columns)
    (hne : ∀ line ∈ dataLines, line ≠ "")
    (hok : ∀ row ∈ dictReaderRows (header :: dataLines),
      rowOk columns row = true) :
    (generate_deletes db sn tn desc (header :: dataLines) e).summary =
      some dataLines.length ∧
    (generate_deletes db sn tn desc (header :: dataLines) e).written.length =
      dataLines.length := by
  have hfilter : dataLines.filter (fun l => l != "") = dataLines :=
    List.filter_eq_self.mpr (fun a ha => by simpa using hne a ha)
  have hrows : dictReaderRows (header :: dataLines) =
      dataLines.map (fun line => (pySplit header '|').zip (pySplit line '|')) := by
    simp [dictReaderRows, hfilter]
  have hws := @writeStmts_ok db sn tn columns (dictReaderRows (header :: dataLines)) hok
  rw [hrows] at hws
  constructor <;>
    simp [generate_deletes, hlook, hrows, hws]

/-- Witness for C4 at a concrete input with two data rows. -/
theorem deleteCountMatchesRowsWitness :
    (generate_deletes "db" "s1" "t1"
      [("s1", [("t1", [("id", "int64")])])] ["id", "7", "8"] 0).summary =
      some (["7", "8"].length) ∧
    (generate_deletes "db" "s1" "t1"
      [("s1", [("t1", [("id", "int64")])])]
      ["id", "7", "8"] 0).written.length = ["7", "8"].length :=
  deleteCountMatchesRows "db" "s1" "t1" [("s1", [("t1", [("id", "int64")])])]
    [("id", "int64")] "id" ["7", "8"] 0 rfl (by decide) (by decide)

/-- Claim C5: a delete row containing a column name that does not exist in
the discovered schema for the target table makes delete generation fail
with an uncaught KeyError rather than producing a statement for that row:
no batch execution and no summary happen, and the requirement is not
checked in advance. -/
theorem missingColumnKeyError (db sn tn : String) (desc : Descriptions)
    (columns : Columns) (fileLines : List String) (e : Int)
    (hlook : lookupColumns desc sn tn = some columns)
    (hbad : ∃ row ∈ dictReaderRows fileLines, rowOk columns row = false) :
    ∃ k, assocGet columns k = none ∧
      (generate_deletes db sn tn desc fileLines e).crash =
        some ("KeyError: " ++ k) ∧
      (generate_deletes db sn tn desc fileLines e).summary = none ∧
      (generate_deletes db sn tn desc fileLines e).tqlExecuted = false := by
  obtain ⟨k, hk, hck⟩ := @writeStmts_err db sn tn columns (dictReaderRows fileLines) hbad
  exact ⟨k, hk, by simp [generate_deletes, hlook, hck],
    by simp [generate_deletes, hlook, hck],
    by simp [generate_deletes, hlook, hck]⟩

/-- Witness for C5 at a concrete input: the file references column `nm`,
which the discovered schema does not have. -/
theorem missingColumnKeyErrorWitness :
    ∃ k, assocGet [("id", "int64")] k = none ∧
      (generate_deletes "db" "s1" "t1" [("s1", [("t1", [("id", "int64")])])]
        ["id|nm", "7|bob"] 0).crash = some ("KeyError: " ++ k) ∧
      (generate_deletes "db" "s1" "t1" [("s1", [("t1", [("id", "int64")])])]
        ["id|nm", "7|bob"] 0).summary = none ∧
      (generate_deletes "db" "s1" "t1" [("s1", [("t1", [("id", "int64")])])]
        ["id|nm", "7|bob"] 0).tqlExecuted = false :=
  missingColumnKeyError "db" "s1" "t1" [("s1", [("t1", [("id", "int64")])])]
    [("id", "int64")] ["id|nm", "7|bob"] 0 rfl (by decide)

/-- Claim C6: the `-p` (`--separator`) argument has no effect: two invocations
that differ only in the separator argument produce identical runs (in
particular identical generated delete statements), because delete-row
parsing hardcodes the `|` delimiter. -/
theorem separatorHasNoEffect (a : Args) (env : Env) (sep : String) :
    runMain { a with separator := sep } env = runMain a env :=
  rfl

/-- Claim C7: if a required argument is missing (filename, table or
database) or the named delete file does not exist, the script prints an
error to standard error and aborts before making any subprocess call, so
no schema discovery and no deletion occurs. -/
theorem badArgsAbortEarly (a : Args) (env : Env)
    (h : a.filename = none ∨ env.fileIsFile = false ∨ a.table = none ∨
      a.database = none) :
    (runMain a env).stderr ≠ [] ∧ (runMain a env).schemaCalls = 0 ∧
    (runMain a env).execCalls = 0 ∧ (runMain a env).fileRead = false ∧
    (runMain a env).written = [] ∧ (runMain a env).summary = none := by
  obtain ⟨h1, h2⟩ := @check_args_bad a env.fileIsFile h
  refine ⟨?_, ?_, ?_, ?_, ?_, ?_⟩ <;> simp [runMain, h1, h2]

/-- Witness for C7 at a concrete input with no filename argument. -/
theorem badArgsAbortEarlyWitness :
    (runMain ⟨none, some "t1", some "db", "falcon_default_schema", "|"⟩
      ⟨true, ["s1|t1"], fun _ _ => ["id||int64"], ["id", "7"], 0⟩).stderr ≠ [] ∧
    (runMain ⟨none, some "t1", some "db", "falcon_default_schema", "|"⟩
      ⟨true, ["s1|t1"], fun _ _ => ["id||int64"], ["id", "7"], 0⟩).schemaCalls = 0 ∧
    (runMain ⟨none, some "t1", some "db", "falcon_default_schema", "|"⟩
      ⟨true, ["s1|t1"], fun _ _ => ["id||int64"], ["id", "7"], 0⟩).execCalls = 0 ∧
    (runMain ⟨none, some "t1", some "db", "falcon_default_schema", "|"⟩
      ⟨true, ["s1|t1"], fun _ _ => ["id||int64"], ["id", "7"], 0⟩).fileRead = false ∧
    (runMain ⟨none, some "t1", some "db", "falcon_default_schema", "|"⟩
      ⟨true, ["s1|t1"], fun _ _ => ["id||int64"], ["id", "7"], 0⟩).written = [] ∧
    (runMain ⟨none, some "t1", some "db", "falcon_default_schema", "|"⟩
      ⟨true, ["s1|t1"], fun _ _ => ["id||int64"], ["id", "7"], 0⟩).summary = none :=
  badArgsAbortEarly ⟨none, some "t1", some "db", "falcon_default_schema", "|"⟩
    ⟨true, ["s1|t1"], fun _ _ => ["id||int64"], ["id", "7"], 0⟩ (Or.inl rfl)

/-- Claim C8: when the target schema/table pair is not in the discovered
schema map, `generate_deletes` prints an error to standard error and
returns without generating anything: the input file is not read, nothing
is written, the external tool is not invoked and no summary is printed. -/
theorem tableNotFoundAborts (db sn tn : String) (desc : Descriptions)
    (fileLines : List String) (e : Int)
    (h : lookupColumns desc sn tn = none) :
    generate_deletes db sn tn desc fileLines e =
      { stderr := ["Table " ++ sn ++ "." ++ tn ++ " not found."]
        fileRead := false
        written := []
        tqlExecuted := false
        summary := none
        crash := none } := by
  simp [generate_deletes, h]

/-- Witness for C8 at a concrete input with an empty schema map. -/
theorem tableNotFoundAbortsWitness :
    generate_deletes "db" "s1" "t1" [] ["id", "7"] 0 =
      { stderr := ["Table " ++ "s1" ++ "." ++ "t1" ++ " not found."]
        fileRead := false
        written := []
        tqlExecuted := false
        summary := none
        crash := none } :=
  tableNotFoundAborts "db" "s1" "t1" [] ["id", "7"] 0 rfl

/-- Claim C9: the result of the batch execution subprocess call is ignored:
the whole observable outcome of `generate_deletes`, including the
`Executed N deletes` summary, is the same for every exit status of the
external tool. -/
theorem execResultIgnored (db sn tn : String) (desc : Descriptions)
    (fileLines : List String) (e1 e2 : Int) :
    generate_deletes db sn tn desc fileLines e1 =
      generate_deletes db sn tn desc fileLines e2 :=
  rfl

/-- Claim C10: field values are interpolated into the generated SQL verbatim
with no escaping: every row value `v` occurs unchanged in the emitted
statement, inside single quotes when the column's type is non-numeric, even
when `v` contains quotes, semicolons or SQL text. -/
theorem valuesInterpolatedVerbatim (db sn tn : String) (columns : Columns)
    (row : List (String × String)) (stmt : String)
    (h : buildStmt db sn tn columns row = Except.ok stmt)
    (k v : String) (hm : (k, v) ∈ row) :
    ∃ ty, assocGet columns k = some ty ∧ occurs v stmt ∧
      ((containsSub ty "int" || containsSub ty "double") = false →
        occurs (sQuote ++ v ++ sQuote) stmt) := by
  cases hbc : buildConditions columns row with
  | error e => simp [buildStmt, hbc] at h
  | ok conds =>
    obtain ⟨ty, hty, hmem⟩ := buildConditions_mem hbc hm
    have hstmt : stmt = "DELETE FROM " ++ db ++ "." ++ sn ++ "." ++ tn ++
        " WHERE " ++ joinAnd conds ++ ";" := by
      simp [buildStmt, hbc] at h
      exact h.symm
    have hcond : occurs (formatCondition ty k v) stmt := by
      rw [hstmt]
      exact occurs_append_left _ (occurs_append_right _ (mem_joinAnd hmem))
    refine ⟨ty, hty, ?_, ?_⟩
    · refine occurs_trans ?_ hcond
      by_cases hnum : (containsSub ty "int" || containsSub ty "double") = true
      · simp only [formatCondition, hnum, if_true]
        exact occurs_append_right _ (occurs_self v)
      · simp only [formatCondition, hnum, if_false]
        exact ⟨k ++ " = " ++ sQuote, sQuote, rfl⟩
    · intro hnq
      refine occurs_trans ?_ hcond
      have hnum : ¬ ((containsSub ty "int" || containsSub ty "double") = true) := by
        simp [hnq]
      simp only [formatCondition, hnum, if_false]
      exact ⟨k ++ " = ", "", strExt (by simp [strData_append])⟩

/-- Witness for C10 at a concrete input whose value contains a single
quote, a semicolon and SQL text. -/
theorem valuesInterpolatedVerbatimWitness :
    ∃ ty, assocGet [("nm", "varchar")] "nm" = some ty ∧
      occurs hostileValue
        ("DELETE FROM db.s1.t1 WHERE nm = " ++ sQuote ++ hostileValue ++
          sQuote ++ ";") ∧
      ((containsSub ty "int" || containsSub ty "double") = false →
        occurs (sQuote ++ hostileValue ++ sQuote)
          ("DELETE FROM db.s1.t1 WHERE nm = " ++ sQuote ++ hostileValue ++
            sQuote ++ ";")) :=
  valuesInterpolatedVerbatim "db" "s1" "t1" [("nm", "varchar")]
    [("nm", hostileValue)]
    ("DELETE FROM db.s1.t1 WHERE nm = " ++ sQuote ++ hostileValue ++
      sQuote ++ ";")
    rfl "nm" hostileValue (by simp)
